import Mathlib

/-!
Verification development for the RF4S UI observation core.

This file gives a shallow embedding, in Lean 4, of the pure decision logic of
the process/connection/file observation subsystem of the repository:

* `GameMonitor._update_status` (src/rf4s_ui/components/game_monitor/game_monitor.py)
* `ConnectionMonitor` quality assessment, transition handling and history
  (src/rf4s_ui/components/game_monitor/connection_monitor.py)
* `ProcessTracker` scan-tick event emission
  (src/rf4s_ui/components/game_monitor/process_tracker.py)
* `EventManager.publish` (src/rf4s_ui/core/event_manager.py)
* `ServiceRegistry.get_service` (src/rf4s_ui/core/service_registry.py)
* `ConfigurationBridge.read_config` and `write_config`
  (src/rf4s_ui/core/bridge/configuration_bridge.py)

Python floats standing for seconds or milliseconds are modelled as `Rat`;
Python dicts appearing as configuration documents are modelled as association
lists; fallible operations return `Option` or a success Boolean exactly where
the source returns `None` or `False`.  Effects (emitted Qt signals, invoked
callbacks) are modelled as explicit event lists returned by each step
function, in emission order.
-/

namespace RF4S

/-! ## GameMonitor status derivation (game_monitor.py, lines 128-167) -/

/-- Snapshot returned by `ProcessTracker.get_current_status`
(process_tracker.py, lines 208-227), restricted to the scalar fields. -/
structure ProcessStatus where
  is_running : Bool
  pid : Option Nat
  uptime : Rat
deriving Repr, DecidableEq

/-- Snapshot returned by `ConnectionMonitor.get_connection_status`
(connection_monitor.py, lines 296-308). -/
structure ConnStatus where
  is_connected : Bool
  last_check : Rat
  is_monitoring : Bool
  check_interval : Nat
  history_entries : Nat
deriving Repr, DecidableEq

/-- The `status_info` dictionary built by `GameMonitor._update_status`
(game_monitor.py, lines 149-156). -/
structure StatusInfo where
  overall_status : String
  timestamp : Rat
  game_running : Bool
  connection_active : Bool
  process_info : ProcessStatus
  connection_info : ConnStatus
deriving Repr, DecidableEq

/-- The `if`/`elif` chain of `GameMonitor._update_status` that derives
`overall_status` from the two Booleans (game_monitor.py, lines 139-146). -/
def compute_overall_status (game_running connection_active : Bool) : String :=
  if game_running && connection_active then "running_connected"
  else if game_running && !connection_active then "running_disconnected"
  else if !game_running && connection_active then "not_running_connected"
  else "not_running_disconnected"

/-- `GameMonitor._update_status` (game_monitor.py, lines 128-167): gathers the
two monitor snapshots and packs the derived overall status into the
`status_info` dictionary that is logged and emitted. -/
def update_status (game_running connection_active : Bool) (now : Rat)
    (proc : ProcessStatus) (conn : ConnStatus) : StatusInfo :=
  { overall_status := compute_overall_status game_running connection_active
    timestamp := now
    game_running := game_running
    connection_active := connection_active
    process_info := proc
    connection_info := conn }

/-! ## ConnectionMonitor quality assessment (connection_monitor.py) -/

/-- Result dictionary built by `ConnectionMonitor._test_internet_connectivity`
(connection_monitor.py, lines 133-175): the list of response times of the
successful probes, the failed targets, and the `connected` flag. -/
structure InternetResult where
  connected : Bool
  response_times : List Rat
  failed_targets : List String
deriving Repr, DecidableEq

/-- Builds the `_test_internet_connectivity` result from the outcome of each
probe target: `some t` is a successful connect taking `t` milliseconds,
`none` a failure.  `connected` is true iff at least one probe succeeded
(connection_monitor.py, lines 142-166). -/
def test_internet_connectivity (outcomes : List (String × Option Rat)) :
    InternetResult :=
  { connected := !(outcomes.filterMap Prod.snd).isEmpty
    response_times := outcomes.filterMap Prod.snd
    failed_targets := (outcomes.filter (fun o => o.snd.isNone)).map Prod.fst }

/-- The `avg_response_time` key set at connection_monitor.py, lines 168-169:
present only when at least one probe succeeded. -/
def avg_response_time (r : InternetResult) : Option Rat :=
  if r.response_times.isEmpty then none
  else some (r.response_times.sum / r.response_times.length)

/-- The latency banding of `ConnectionMonitor._assess_connection_quality`
(connection_monitor.py, lines 231-240). -/
def assess_quality_band (avg_response : Rat) : String :=
  if avg_response < 50 then "excellent"
  else if avg_response < 100 then "good"
  else if avg_response < 200 then "fair"
  else if avg_response < 500 then "poor"
  else "very_poor"

/-- `ConnectionMonitor._assess_connection_quality` (connection_monitor.py,
lines 221-244): `no_connection` when no basic target succeeded, otherwise the
latency band of the average response time (source default 1000 when the
average is absent, which cannot happen while connected). -/
def assess_connection_quality (internet : InternetResult) : String :=
  if !internet.connected then "no_connection"
  else assess_quality_band ((avg_response_time internet).getD 1000)

/-- Numeric rank of a quality tier, used to state that the classification is
monotonically non-increasing in latency. -/
def quality_rank (q : String) : Nat :=
  if q = "excellent" then 5
  else if q = "good" then 4
  else if q = "fair" then 3
  else if q = "poor" then 2
  else if q = "very_poor" then 1
  else 0

/-! ## ConnectionMonitor history (connection_monitor.py, lines 277-316) -/

/-- The `history_entry` dictionary appended by
`ConnectionMonitor._update_connection_history` (connection_monitor.py,
lines 280-285). -/
structure ConnectionSample where
  timestamp : Rat
  connected : Bool
  quality : String
  response_time : Rat
deriving Repr, DecidableEq

/-- Builds the history entry of `_update_connection_history` from the current tick
internet-connectivity result (connection_monitor.py, lines 280-285): the
`response_time` field defaults to 0 when no probe succeeded. -/
def mk_history_entry (timestamp : Rat) (internet : InternetResult) :
    ConnectionSample :=
  { timestamp := timestamp
    connected := internet.connected
    quality := assess_connection_quality internet
    response_time := (avg_response_time internet).getD 0 }

/-- `ConnectionMonitor._update_connection_history` (connection_monitor.py,
lines 277-294): append the entry, then keep only the last 100 entries. -/
def update_connection_history (history : List ConnectionSample)
    (entry : ConnectionSample) : List ConnectionSample :=
  let h := history ++ [entry]
  if h.length > 100 then h.drop (h.length - 100) else h

/-- The connection history obtained by running `_update_connection_history`
once per tick, starting from the empty history of `__init__`. -/
def run_history_ticks (entries : List ConnectionSample) :
    List ConnectionSample :=
  entries.foldl update_connection_history []

/-- The Python slice `lst[-limit:]` for a natural `limit`: `-0` is `0`, so
`limit = 0` selects the whole list; otherwise the last `limit` elements. -/
def py_slice_last {α : Type} (l : List α) (limit : Nat) : List α :=
  if limit = 0 then l else l.drop (l.length - limit)

/-- `ConnectionMonitor.get_connection_history` (connection_monitor.py,
lines 310-316): `history[-limit:] if history else []`. -/
def get_connection_history (history : List ConnectionSample) (limit : Nat) :
    List ConnectionSample :=
  if history.isEmpty then [] else py_slice_last history limit

/-- `GameMonitor.get_status_history` (game_monitor.py, lines 219-225):
`status_history[-limit:] if status_history else []`. -/
def get_status_history (history : List StatusInfo) (limit : Nat) :
    List StatusInfo :=
  if history.isEmpty then [] else py_slice_last history limit

/-! ## ConnectionMonitor transitions (connection_monitor.py, lines 83-131 and
246-275) -/

/-- Result dictionary built by `ConnectionMonitor._test_game_servers`
(connection_monitor.py, lines 177-219), restricted to the server lists the
transition handler inspects. -/
structure GameServersResult where
  reachable_servers : List String
  unreachable_servers : List String
deriving Repr, DecidableEq

/-- Events emitted by `ConnectionMonitor` via its Qt signals. -/
inductive ConnEvent where
  | established (connection_type : String)
  | lost (reason : String)
  | status_changed (status : String) (connected : Bool)
deriving Repr, DecidableEq

/-- `ConnectionMonitor._handle_connection_change` (connection_monitor.py,
lines 246-275): on a rising edge emit `connection_established` with the
connection type, on a falling edge emit `connection_lost` with the derived
reason; otherwise emit nothing.  Returns the new `is_connected` flag and the
emitted events. -/
def handle_connection_change (is_connected : Bool) (connected : Bool)
    (internet : InternetResult) (game : GameServersResult) :
    Bool × List ConnEvent :=
  if connected && !is_connected then
    let connection_type :=
      if !game.reachable_servers.isEmpty then "game_servers" else "internet"
    (true, [ConnEvent.established connection_type])
  else if !connected && is_connected then
    let reason :=
      if !internet.connected then "internet_disconnected"
      else if game.reachable_servers.isEmpty then "game_servers_unreachable"
      else "unknown"
    (false, [ConnEvent.lost reason])
  else (is_connected, [])

/-- The state of a `ConnectionMonitor` instance that `_check_connection`
reads and writes. -/
structure ConnMonitorState where
  is_connected : Bool
  last_check_time : Rat
  connection_history : List ConnectionSample
deriving Repr, DecidableEq

/-- `ConnectionMonitor._check_connection` (connection_monitor.py,
lines 83-131): computes the overall flag from the internet result, runs the
transition handler when the flag changed, appends the sample of the tick to the
bounded history, and emits the `connection_status_changed` update.  The probe
results of the tick are inputs of the function. -/
def check_connection (st : ConnMonitorState) (now : Rat)
    (internet : InternetResult) (game : GameServersResult) :
    ConnMonitorState × List ConnEvent :=
  let overall_connected := internet.connected
  let change :=
    if overall_connected != st.is_connected then
      handle_connection_change st.is_connected overall_connected internet game
    else (st.is_connected, [])
  let history := update_connection_history st.connection_history
    (mk_history_entry now internet)
  let status_string := if overall_connected then "connected" else "disconnected"
  ({ is_connected := change.fst
     last_check_time := now
     connection_history := history },
   change.snd ++ [ConnEvent.status_changed status_string overall_connected])

/-- The reasons of the `connection_lost` events in an emitted event list. -/
def lost_reasons (events : List ConnEvent) : List String :=
  events.filterMap (fun e =>
    match e with
    | ConnEvent.lost reason => some reason
    | _ => none)

/-! ## ProcessTracker scan tick (process_tracker.py, lines 71-144 and
174-206) -/

/-- Events emitted by `ProcessTracker` via its Qt signals. -/
inductive ProcEvent where
  | found (pid : Nat) (name : String)
  | lost (pid : Nat)
  | status_changed (status : String)
deriving Repr, DecidableEq

/-- Whether an emitted event is a `process_found` or `process_lost` signal. -/
def is_found_or_lost (e : ProcEvent) : Bool :=
  match e with
  | ProcEvent.found _ _ => true
  | ProcEvent.lost _ => true
  | ProcEvent.status_changed _ => false

/-- The liveness of the tracked process at the time
`_update_process_status` inspects it: `running status` when
`is_running()` holds and `proc.status()` maps to `status`
(process_tracker.py, lines 182-191); `gone` when `is_running()` is false
(the method then does nothing); `vanished` when the lookup raises
`NoSuchProcess`/`AccessDenied` (the method then runs
`_handle_no_processes`). -/
inductive ProcLiveness where
  | running (status : String)
  | gone
  | vanished
deriving Repr, DecidableEq

/-- The state of a `ProcessTracker` instance that a scan tick reads and
writes: the currently tracked PID, `none` when no process is tracked. -/
structure TrackerState where
  current_pid : Option Nat
deriving Repr, DecidableEq

/-- `ProcessTracker._handle_no_processes` (process_tracker.py,
lines 127-144): when a PID was tracked, clear it and emit `process_lost`
followed by a `not_running` status update; otherwise do nothing. -/
def handle_no_processes (st : TrackerState) : TrackerState × List ProcEvent :=
  match st.current_pid with
  | some pid =>
    ({ current_pid := none },
     [ProcEvent.lost pid, ProcEvent.status_changed "not_running"])
  | none => (st, [])

/-- `ProcessTracker._update_process_status` (process_tracker.py,
lines 174-206): emit a `status_changed` signal when the tracked process is
still running, do nothing when `is_running()` is false, and fall back to
`_handle_no_processes` when the process lookup raises. -/
def update_process_status (st : TrackerState) (live : ProcLiveness) :
    TrackerState × List ProcEvent :=
  match live with
  | ProcLiveness.running status => (st, [ProcEvent.status_changed status])
  | ProcLiveness.gone => (st, [])
  | ProcLiveness.vanished => handle_no_processes st

/-- `ProcessTracker._handle_found_processes` (process_tracker.py,
lines 100-125), called with the non-empty match list whose head is the
canonical process: when the canonical PID differs from the tracked one, emit
`process_lost` for the old PID (if any) and then `process_found` for the new
one; afterwards run `_update_process_status`. -/
def handle_found_processes (st : TrackerState) (first : Nat × String)
    (live : ProcLiveness) : TrackerState × List ProcEvent :=
  let new_pid := first.fst
  let step :=
    if st.current_pid != some new_pid then
      let lost_events :=
        match st.current_pid with
        | some old_pid => [ProcEvent.lost old_pid]
        | none => []
      (({ current_pid := some new_pid } : TrackerState),
       lost_events ++ [ProcEvent.found new_pid first.snd])
    else (st, [])
  let status_step := update_process_status step.fst live
  (status_step.fst, step.snd ++ status_step.snd)

/-- `ProcessTracker._scan_processes` (process_tracker.py, lines 71-98) after
the enumeration: dispatch on whether the filtered match list is empty. -/
def scan_tick (st : TrackerState) (found_procs : List (Nat × String))
    (live : ProcLiveness) : TrackerState × List ProcEvent :=
  match found_procs with
  | [] => handle_no_processes st
  | first :: _ => handle_found_processes st first live

/-! ## EventManager (event_manager.py) -/

/-- The `Event` dataclass (event_manager.py, lines 18-27); payloads are
modelled as strings. -/
structure BusEvent where
  name : String
  data : String
  timestamp : Rat
  source : Option String
  event_id : String
deriving Repr, DecidableEq

/-- One entry of a `_subscribers[event_name]` list (event_manager.py,
line 64): the callback is identified by a numeric id and modelled by whether
invoking it raises. -/
structure Subscriber where
  id : Nat
  priority : Int
  raises : Bool
deriving Repr, DecidableEq

/-- The mutable state of the `EventManager` singleton (event_manager.py,
lines 48-54). -/
structure EventManagerState where
  subscribers : List (String × List Subscriber)
  event_history : List BusEvent
deriving Repr, DecidableEq

/-- `_max_history` (event_manager.py, line 52). -/
def max_history : Nat := 1000

/-- Lookup in an association list modelling a Python dict with list
values: the default `[]` when the key is absent. -/
def assoc_get_list : List (String × List Subscriber) → String → List Subscriber
  | [], _ => []
  | p :: ps, name => if p.fst = name then p.snd else assoc_get_list ps name

/-- `self._subscribers.get(event.name, [])` (event_manager.py, line 128). -/
def lookup_subscribers (st : EventManagerState) (name : String) :
    List Subscriber :=
  assoc_get_list st.subscribers name

/-- The observable steps `publish` performs, in order: the history append and
each callback invocation (`ok` records whether the callback returned
normally or raised; either way the exception is caught at
event_manager.py, lines 130-135). -/
inductive BusAction where
  | append_history (e : BusEvent)
  | invoke (id : Nat) (ok : Bool)
deriving Repr, DecidableEq

/-- `EventManager._notify_subscribers` (event_manager.py, lines 125-138):
every subscriber in the stored list is invoked once, inside a per-callback
`try`/`except` that logs and continues. -/
def notify_subscribers (subs : List Subscriber) : List BusAction :=
  subs.map (fun s => BusAction.invoke s.id (!s.raises))

/-- `EventManager.publish` (event_manager.py, lines 98-123): build the event,
append it to the bounded history (dropping the oldest entry past
`_max_history`), then notify the subscribers.  Returns the new state and the
action trace in execution order. -/
def publish (st : EventManagerState) (event_name : String) (data : String)
    (source : Option String) (now : Rat) :
    EventManagerState × List BusAction :=
  let event : BusEvent :=
    { name := event_name
      data := data
      timestamp := now
      source := source
      event_id := event_name ++ "_" ++ toString now }
  let h := st.event_history ++ [event]
  let history := if h.length > max_history then h.drop 1 else h
  let actions := notify_subscribers (lookup_subscribers st event_name)
  ({ st with event_history := history }, BusAction.append_history event :: actions)

/-- The subscriber ids invoked by the action trace of a publish. -/
def invoked_ids (actions : List BusAction) : List Nat :=
  actions.filterMap (fun a =>
    match a with
    | BusAction.invoke i _ => some i
    | _ => none)

/-- `EventManager.get_event_history` (event_manager.py, lines 140-157):
filter by name when a truthy name is given (the Python test `if event_name:` is
false for both `None` and the empty string), then slice with `[-limit:]`. -/
def get_event_history (history : List BusEvent) (event_name : Option String)
    (limit : Nat) : List BusEvent :=
  match event_name with
  | some n =>
    if n = "" then py_slice_last history limit
    else py_slice_last (history.filter (fun e => e.name == n)) limit
  | none => py_slice_last history limit

/-! ## ServiceRegistry (service_registry.py) -/

/-- The mutable state of the `ServiceRegistry` singleton
(service_registry.py, lines 35-42).  Registered classes and factories are
identified by name; instances are identified by the value of a fresh-id
counter, and the number of factory invocations is recorded so that
"the factory is invoked at most once" is statable. -/
structure RegState where
  services : List String
  factories : List String
  singletons : List (String × Option Nat)
  next_instance : Nat
  factory_calls : Nat
  class_instantiations : Nat
deriving Repr, DecidableEq

/-- `ServiceRegistry.register_factory` (service_registry.py, lines 57-64):
`self._factories[name] = factory`.  It does not touch `_singletons`. -/
def register_factory (st : RegState) (name : String) : RegState :=
  if name ∈ st.factories then st
  else { st with factories := st.factories ++ [name] }

/-- `ServiceRegistry.register_service` (service_registry.py, lines 44-55):
records the class under `_services` and, when `singleton` is true, creates
the pending `_singletons[name] = None` slot. -/
def register_service (st : RegState) (name : String) (singleton : Bool) :
    RegState :=
  let singletons :=
    if singleton then
      if (st.singletons.find? (fun p => p.fst == name)).isSome then
        st.singletons.map (fun p => if p.fst == name then (p.fst, none) else p)
      else st.singletons ++ [(name, none)]
    else st.singletons
  { st with
    singletons := singletons
    services := if name ∈ st.services then st.services
                else st.services ++ [name] }

/-- Lookup in the `_singletons` dict: `none` when the key is absent,
`some v` when present with value `v` (`v = none` models Python `None`). -/
def singleton_get : List (String × Option Nat) → String → Option (Option Nat)
  | [], _ => none
  | p :: ps, name => if p.fst = name then some p.snd else singleton_get ps name

/-- Lookup in the `_singletons` dict of a registry state. -/
def lookup_singleton (st : RegState) (name : String) : Option (Option Nat) :=
  singleton_get st.singletons name

/-- `self._singletons[name] = inst` on an existing key. -/
def set_singleton : List (String × Option Nat) → String → Option Nat →
    List (String × Option Nat)
  | [], _, _ => []
  | p :: ps, name, v =>
    if p.fst = name then (p.fst, v) :: ps else p :: set_singleton ps name v

/-- `ServiceRegistry.get_service` (service_registry.py, lines 75-104): a name
with a `_singletons` slot is instantiated once and cached; otherwise a
registered class or factory is invoked anew on every call and the result is
returned without caching; an unknown name raises `ServiceException`,
modelled as `none`. -/
def get_service (st : RegState) (name : String) : Option Nat × RegState :=
  match lookup_singleton st name with
  | some cached =>
    match cached with
    | some inst => (some inst, st)
    | none =>
      if name ∈ st.services then
        (some st.next_instance,
         { st with
           singletons := set_singleton st.singletons name (some st.next_instance)
           next_instance := st.next_instance + 1
           class_instantiations := st.class_instantiations + 1 })
      else if name ∈ st.factories then
        (some st.next_instance,
         { st with
           singletons := set_singleton st.singletons name (some st.next_instance)
           next_instance := st.next_instance + 1
           factory_calls := st.factory_calls + 1 })
      else (none, st)
  | none =>
    if name ∈ st.services then
      (some st.next_instance,
       { st with
         next_instance := st.next_instance + 1
         class_instantiations := st.class_instantiations + 1 })
    else if name ∈ st.factories then
      (some st.next_instance,
       { st with
         next_instance := st.next_instance + 1
         factory_calls := st.factory_calls + 1 })
    else (none, st)

/-! ## ConfigurationBridge (configuration_bridge.py)

Configuration documents are modelled as ordered association lists of string
keys.  The file system stores, per `(logical name, extension)` entry, the
parsed form of the on-disk content.  The YAML and JSON serializers
(`yaml.dump`/`yaml.safe_load`, `json.dump`/`json.load`) are faithful
round-trips on this value domain (Python dict equality is key-order
insensitive, so the PyYAML key sorting preserves deep equality), so writing
and re-parsing a document yields the document itself.  The INI backend uses
`configparser` (a default `ConfigParser()`: strict, `BasicInterpolation`,
no `allow_no_value`).  Writing goes through `read_dict`, which applies
`optionxform` (lower-casing) to option keys and `str(...)` to option
values, requires every top-level value to be a mapping, raises `TypeError`
on a `None` value, raises `DuplicateOptionError` on case-colliding option
keys within one section, and runs `BasicInterpolation.before_set`, which
raises `ValueError` on any percent sign that is neither doubled (`%%`) nor
part of a `%(name)s` reference; `open(file, "w")` truncates the target
before serialization, so any failing INI write leaves an empty file.
Re-parsing the written file strips leading and trailing whitespace from
each value (and from keys), and serving values through `dict(config[sec])`
runs `BasicInterpolation.before_get`: `%%` collapses to `%` and `%(name)s`
references are resolved recursively from the section mapping up to
`MAX_INTERPOLATION_DEPTH`, any interpolation error making the whole read
fail.  Outside this model (assumed absent from the documents): the
`DEFAULT` section (its keys merge into every section on read), duplicate
section names (not expressible by a Python dict argument), option keys or
section names containing delimiter, comment-leader, bracket or newline
characters, empty option keys, values spanning several lines, and exotic
Unicode whitespace at value edges. -/

/-- A Python value appearing in a configuration document. -/
inductive CVal where
  | str (s : String)
  | int (n : Int)
  | bool (b : Bool)
  | pynone
  | list (elems : List CVal)
  | dict (entries : List (String × CVal))
deriving Repr

/-- A configuration document: the parsed form of a config file. -/
abbrev CDict := List (String × CVal)

mutual

/-- Python `repr(value)` on the modelled value domain (strings are quoted
with `\x27`). -/
def py_repr : CVal → String
  | CVal.str s => "\x27" ++ s ++ "\x27"
  | CVal.int n => toString n
  | CVal.bool true => "True"
  | CVal.bool false => "False"
  | CVal.pynone => "None"
  | CVal.list l => "[" ++ String.intercalate ", " (py_repr_list l) ++ "]"
  | CVal.dict d => "\x7b" ++ String.intercalate ", " (py_repr_entries d) ++ "\x7d"

/-- `repr` of each element of a Python list. -/
def py_repr_list : List CVal → List String
  | [] => []
  | v :: vs => py_repr v :: py_repr_list vs

/-- `repr` of each key/value pair of a Python dict. -/
def py_repr_entries : List (String × CVal) → List String
  | [] => []
  | (k, v) :: es => ("\x27" ++ k ++ "\x27: " ++ py_repr v) :: py_repr_entries es

end

/-- Python `str(value)`: the string itself for strings, `repr` otherwise
(this is what `configparser.read_dict` applies to option values). -/
def py_str (v : CVal) : String :=
  match v with
  | CVal.str s => s
  | v => py_repr v

/-- The six ASCII whitespace characters stripped by Python `str.strip()`
(exotic Unicode whitespace is outside the model). -/
def is_py_space (c : Char) : Bool :=
  c =  ' ' || c =  '\t' || c =  '\n' || c =  '\r' || c =  '\x0b' || c =  '\x0c'

/-- Python `str.strip()`: drop leading and trailing whitespace, as the INI
parser does to every stored value when the written file is re-read. -/
def py_strip (s : String) : String :=
  String.mk (((s.data.dropWhile is_py_space).reverse.dropWhile
    is_py_space).reverse)

/-- Python `str.lower()` as applied by `optionxform` to option keys
(ASCII lowering; exotic Unicode keys are outside the model). -/
def py_lower (s : String) : String := String.mk (s.data.map Char.toLower)

/-- Scan up to the first closing parenthesis: the `[^)]*` part of the
`%\(([^)]+)\)s` interpolation reference syntax of `configparser`
(`BasicInterpolation._KEYCRE`); returns the scanned characters and the
remainder after the parenthesis, or `none` when no parenthesis follows. -/
def take_until_rparen : List Char → Option (List Char × List Char)
  | [] => none
  | c :: cs =>
    if c =  ')' then some ([], cs)
    else match take_until_rparen cs with
      | some (name, rest) => some (c :: name, rest)
      | none => none

/-- The `value.replace("%%", "")` step of `BasicInterpolation.before_set`:
drop every non-overlapping doubled percent sign, left to right. -/
def remove_dbl_pct : List Char → List Char
  | [] => []
  | c :: cs =>
    if c =  '%' then
      match cs with
      | c2 :: cs2 =>
        if c2 =  '%' then remove_dbl_pct cs2
        else c :: remove_dbl_pct (c2 :: cs2)
      | [] => [c]
    else c :: remove_dbl_pct cs

/-- The `_KEYCRE.sub("", value)` step of `BasicInterpolation.before_set`:
remove every non-overlapping leftmost match of `%\(([^)]+)\)s`, scanning
left to right and advancing one character past a percent sign that starts
no reference. -/
def remove_refs (cs : List Char) : List Char :=
  match cs with
  | [] => []
  | c :: cs1 =>
    if c =  '%' then
      match cs1 with
      | c2 :: cs2 =>
        if c2 =  '(' then
          match htu : take_until_rparen cs2 with
          | some (name, restA) =>
            match restA with
            | c3 :: rest3 =>
              if c3 =  's' ∧ name ≠ [] then remove_refs rest3
              else c :: remove_refs (c2 :: cs2)
            | [] => c :: remove_refs (c2 :: cs2)
          | none => c :: remove_refs (c2 :: cs2)
        else c :: remove_refs (c2 :: cs2)
      | [] => [c]
    else c :: remove_refs cs1
termination_by cs.length
decreasing_by
  all_goals simp_wf
  all_goals try omega
  · have hlen : ∀ (l n r : List Char), take_until_rparen l = some (n, r) →
        r.length < l.length := by
      intro l
      induction l with
      | nil => intro n r h; simp [take_until_rparen] at h
      | cons a as ih =>
        intro n r h
        rw [take_until_rparen] at h
        by_cases ha : a =  ')'
        · rw [if_pos ha] at h
          cases h
          simp
        · rw [if_neg ha] at h
          cases hrec : take_until_rparen as with
          | none => rw [hrec] at h; cases h
          | some pr =>
            obtain ⟨n2, r2⟩ := pr
            rw [hrec] at h
            cases h
            have := ih _ _ hrec
            simp
            omega
    have h1 := hlen _ _ _ htu
    simp at h1
    omega

/-- `BasicInterpolation.before_set` as a check: after removing doubled
percent signs and then reference matches, no percent sign may remain,
otherwise `ValueError` is raised and the write fails. -/
def before_set_ok (s : String) : Bool :=
  !((remove_refs (remove_dbl_pct s.data)).contains  '%')

/-- Whether one option value survives `read_dict`: `None` raises
`TypeError` (`allow_no_value` is off), every other value is passed to
`str(...)` and then through `before_set`. -/
def value_writable : CVal → Bool
  | CVal.pynone => false
  | v => before_set_ok (py_str v)

/-- Whether a key list has no duplicates: the strict parser raises
`DuplicateOptionError` when two option keys of one section collide. -/
def keys_nodup : List String → Bool
  | [] => true
  | k :: ks => !(ks.contains k) && keys_nodup ks

/-- Whether `config[section] = values` succeeds for every entry of the
document: each top-level value must be a mapping (anything else raises
`AttributeError` in `read_dict`), its lower-cased option keys must not
collide, and each option value must pass `value_writable`. -/
def ini_writable (data : CDict) : Bool :=
  data.all (fun e =>
    match e.snd with
    | CVal.dict kvs =>
      keys_nodup (kvs.map (fun kv => py_lower kv.fst))
        && kvs.all (fun kv => value_writable kv.snd)
    | _ => false)

/-- What one section of a written INI file parses back to, before
interpolation: option keys pass through `optionxform` (lower-casing) and
the re-parse strips them; option values pass through `str(...)` and the
re-parse strips their edges. -/
def ini_coerce_entry (e : String × CVal) : String × CVal :=
  match e with
  | (sec, CVal.dict kvs) =>
    (sec, CVal.dict (kvs.map (fun kv =>
      (py_strip (py_lower kv.fst), CVal.str (py_strip (py_str kv.snd))))))
  | (sec, v) => (sec, v)

/-- The raw parsed content of an INI file written from a writable
document. -/
def ini_coerce (doc : CDict) : CDict := doc.map ini_coerce_entry

/-- A supported configuration file extension (configuration_bridge.py,
line 143). -/
inductive CExt where
  | yaml | yml | json | ini | cfg
deriving Repr, DecidableEq

/-- The extension priority list of `_find_config_file`
(configuration_bridge.py, line 143). -/
def extension_priority : List CExt := [CExt.yaml, CExt.yml, CExt.json, CExt.ini, CExt.cfg]

/-- The mutable state of a `ConfigurationBridge` instance
(configuration_bridge.py, lines 41-53), together with the config directory
contents and a log of the change notifications delivered to watchers. -/
structure BridgeState where
  files : List (String × CExt × CDict)
  config_cache : List (String × CDict)
  backups : List (String × CExt × CDict)
  change_callbacks : List String
  notifications : List (String × CDict)
deriving Repr

/-- The parsed content of the file `config_path / (name ++ ext)`, `none`
when that file does not exist. -/
def lookup_file : List (String × CExt × CDict) → String → CExt → Option CDict
  | [], _, _ => none
  | e :: es, name, ext =>
    if e.fst = name ∧ e.snd.fst = ext then some e.snd.snd
    else lookup_file es name ext

/-- `ConfigurationBridge._find_config_file` (configuration_bridge.py,
lines 141-150): the first extension in priority order whose file exists. -/
def find_config_file (files : List (String × CExt × CDict)) (name : String) :
    Option CExt :=
  extension_priority.find? (fun ext => (lookup_file files name ext).isSome)

/-- Store `doc` as the content of `config_path / (name ++ ext)`, replacing
the previous content when the file existed and creating the file
otherwise. -/
def set_file : List (String × CExt × CDict) → String → CExt → CDict →
    List (String × CExt × CDict)
  | [], name, ext, doc => [(name, ext, doc)]
  | e :: es, name, ext, doc =>
    if e.fst = name ∧ e.snd.fst = ext then (name, ext, doc) :: es
    else e :: set_file es name ext doc

/-- `self.config_cache[name] = data`. -/
def cache_set : List (String × CDict) → String → CDict → List (String × CDict)
  | [], name, doc => [(name, doc)]
  | p :: ps, name, doc =>
    if p.fst = name then (name, doc) :: ps else p :: cache_set ps name doc

/-- `ConfigurationBridge._write_config_file` (configuration_bridge.py,
lines 189-214): returns the success flag and the parsed form of the
resulting on-disk content.  YAML and JSON serialize the document as is.
INI succeeds only on writable documents (section-shaped, no duplicate
lower-cased option keys, no `None` values, every value passing
`before_set`), storing the coerced sections as the raw re-parse of the
written file; any failure leaves the file truncated empty, since
`open(config_file, "w")` runs before serialization. -/
def write_config_file (ext : CExt) (data : CDict) : Bool × CDict :=
  match ext with
  | CExt.yaml => (true, data)
  | CExt.yml => (true, data)
  | CExt.json => (true, data)
  | CExt.ini => if ini_writable data then (true, ini_coerce data) else (false, [])
  | CExt.cfg => if ini_writable data then (true, ini_coerce data) else (false, [])

/-- `ConfigurationBridge.write_config` (configuration_bridge.py,
lines 103-139) with `_create_backup` (lines 216-229): locate the target (a
missing target becomes a new `.yaml` file, which does not exist yet and is
therefore not backed up); when the target exists and `create_backup` is
requested, attempt the backup copy — `backup_ok` says whether `shutil.copy2`
succeeds, and the Boolean result of `_create_backup` is discarded by the
caller exactly as at line 127 of the source; then serialize, and on success
refresh the cache and notify the registered watcher. -/
def write_config (st : BridgeState) (name : String) (data : CDict)
    (create_backup : Bool) (backup_ok : Bool) : Bool × BridgeState :=
  match find_config_file st.files name with
  | none =>
    let wr := write_config_file CExt.yaml data
    let st1 := { st with files := set_file st.files name CExt.yaml wr.snd }
    if wr.fst then
      (true,
       { st1 with
         config_cache := cache_set st1.config_cache name data
         notifications :=
           if st1.change_callbacks.contains name then
             st1.notifications ++ [(name, data)]
           else st1.notifications })
    else (false, st1)
  | some ext =>
    let old := (lookup_file st.files name ext).getD []
    let backups :=
      if create_backup && backup_ok then st.backups ++ [(name, ext, old)]
      else st.backups
    let wr := write_config_file ext data
    let st1 :=
      { st with
        backups := backups
        files := set_file st.files name ext wr.snd }
    if wr.fst then
      (true,
       { st1 with
         config_cache := cache_set st1.config_cache name data
         notifications :=
           if st1.change_callbacks.contains name then
             st1.notifications ++ [(name, data)]
           else st1.notifications })
    else (false, st1)

/-! ## Theorems -/

/-- The Python slice `lst[-0:]` is `lst[0:]`, the whole list. -/
theorem py_slice_last_zero {α : Type} (l : List α) : py_slice_last l 0 = l := by
  simp [py_slice_last]

/-- C2: for the 4 combinations of `(game_running, connection_active)`, the
overall status computed by `GameMonitor._update_status` and stored in its
status snapshot is `running_connected`, `running_disconnected`,
`not_running_connected`, `not_running_disconnected` respectively. -/
theorem claim_C2 : ∀ (now : Rat) (p : ProcessStatus) (c : ConnStatus),
    (update_status true true now p c).overall_status = "running_connected"
  ∧ (update_status true false now p c).overall_status = "running_disconnected"
  ∧ (update_status false true now p c).overall_status = "not_running_connected"
  ∧ (update_status false false now p c).overall_status = "not_running_disconnected" := by
  intro now p c
  exact ⟨rfl, rfl, rfl, rfl⟩

/-- C10: with `limit = 0`, the three history getters return the entire
stored history (for a non-empty history), because the implementation slices
with `[-limit:]` and `-0` selects the whole list. -/
theorem claim_C10 :
    ∀ (h1 : List ConnectionSample) (h2 : List StatusInfo) (h3 : List BusEvent),
    h1 ≠ [] → h2 ≠ [] → h3 ≠ [] →
    get_connection_history h1 0 = h1
  ∧ get_status_history h2 0 = h2
  ∧ get_event_history h3 none 0 = h3 := by
  intro h1 h2 h3 n1 n2 n3
  refine ⟨?_, ?_, ?_⟩
  · simp [get_connection_history, py_slice_last_zero, n1]
  · simp [get_status_history, py_slice_last_zero, n2]
  · simp [get_event_history, py_slice_last_zero]

/-- Closed instance of C10 on singleton histories. -/
theorem claim_C10_witness :
    get_connection_history [⟨0, true, "good", 80⟩] 0 = [⟨0, true, "good", 80⟩]
  ∧ get_status_history
      [⟨"running_connected", 0, true, true, ⟨true, some 100, 5⟩,
        ⟨true, 0, true, 5000, 1⟩⟩] 0 =
      [⟨"running_connected", 0, true, true, ⟨true, some 100, 5⟩,
        ⟨true, 0, true, 5000, 1⟩⟩]
  ∧ get_event_history [⟨"e", "d", 0, none, "e_0"⟩] none 0 =
      [⟨"e", "d", 0, none, "e_0"⟩] :=
  claim_C10 _ _ _ (by simp) (by simp) (by simp)

/-- C4: connection quality is a deterministic function of reachability and
average latency: `no_connection` when no basic target succeeded, otherwise
the fixed latency bands; the sample latencies 30, 80, 150, 300, 600 ms
classify as excellent, good, fair, poor, very_poor, and the classification
is monotonically non-increasing in latency. -/
theorem claim_C4 :
    (∀ r : InternetResult, r.connected = false →
        assess_connection_quality r = "no_connection")
  ∧ (∀ (r : InternetResult) (a : Rat), r.connected = true →
        avg_response_time r = some a →
        assess_connection_quality r = assess_quality_band a)
  ∧ (∀ a : Rat, a < 50 → assess_quality_band a = "excellent")
  ∧ (∀ a : Rat, 50 ≤ a → a < 100 → assess_quality_band a = "good")
  ∧ (∀ a : Rat, 100 ≤ a → a < 200 → assess_quality_band a = "fair")
  ∧ (∀ a : Rat, 200 ≤ a → a < 500 → assess_quality_band a = "poor")
  ∧ (∀ a : Rat, 500 ≤ a → assess_quality_band a = "very_poor")
  ∧ (assess_connection_quality ⟨true, [30], []⟩ = "excellent"
  ∧ assess_connection_quality ⟨true, [80], []⟩ = "good"
  ∧ assess_connection_quality ⟨true, [150], []⟩ = "fair"
  ∧ assess_connection_quality ⟨true, [300], []⟩ = "poor"
  ∧ assess_connection_quality ⟨true, [600], []⟩ = "very_poor")
  ∧ (∀ a b : Rat, a ≤ b →
        quality_rank (assess_quality_band b) ≤ quality_rank (assess_quality_band a)) := by
  refine ⟨?_, ?_, ?_, ?_, ?_, ?_, ?_, ?_, ?_⟩
  · intro r h
    simp [assess_connection_quality, h]
  · intro r a hc ha
    simp [assess_connection_quality, hc, ha]
  · intro a h
    simp [assess_quality_band, h]
  · intro a h1 h2
    rw [assess_quality_band, if_neg (by linarith), if_pos h2]
  · intro a h1 h2
    rw [assess_quality_band, if_neg (by linarith), if_neg (by linarith), if_pos h2]
  · intro a h1 h2
    rw [assess_quality_band, if_neg (by linarith), if_neg (by linarith),
      if_neg (by linarith), if_pos h2]
  · intro a h1
    rw [assess_quality_band, if_neg (by linarith), if_neg (by linarith),
      if_neg (by linarith), if_neg (by linarith)]
  · refine ⟨?_, ?_, ?_, ?_, ?_⟩ <;>
      norm_num [assess_connection_quality, avg_response_time, assess_quality_band]
  · intro a b hab
    rw [assess_quality_band, assess_quality_band]
    split_ifs <;> first | decide | linarith

/-- Closed instance of C4: a band fact and the monotonicity at 30 ≤ 600. -/
theorem claim_C4_witness :
    assess_quality_band 30 = "excellent"
  ∧ quality_rank (assess_quality_band 600) ≤ quality_rank (assess_quality_band 30) :=
  ⟨claim_C4.2.2.1 30 (by norm_num),
   claim_C4.2.2.2.2.2.2.2.2 30 600 (by norm_num)⟩

/-- Unfolding one trailing tick of the bounded history run. -/
theorem run_history_ticks_append (xs : List ConnectionSample)
    (x : ConnectionSample) :
    run_history_ticks (xs ++ [x]) =
      update_connection_history (run_history_ticks xs) x := by
  simp [run_history_ticks, List.foldl_append]

/-- After any number of ticks the history is exactly the last 100 entries of
the sample stream. -/
theorem run_history_ticks_eq_drop (entries : List ConnectionSample) :
    run_history_ticks entries = entries.drop (entries.length - 100) := by
  induction entries using List.reverseRecOn with
  | nil => rfl
  | append_singleton xs x ih =>
    rw [run_history_ticks_append, ih]
    simp only [update_connection_history, List.length_append, List.length_drop,
      List.length_cons, List.length_nil]
    by_cases hL : xs.length ≤ 99
    · have h0 : xs.length - 100 = 0 := by omega
      rw [h0, List.drop_zero, if_neg (by omega)]
      have h1 : xs.length + (0 + 1) - 100 = 0 := by omega
      rw [h1, List.drop_zero]
    · rw [if_pos (by omega)]
      have e1 : xs.length - (xs.length - 100) + (0 + 1) - 100 = 1 := by omega
      rw [e1, List.drop_append_of_le_length (by rw [List.length_drop]; omega),
        List.drop_drop,
        List.drop_append_of_le_length (by omega)]
      have e2 : xs.length - 100 + 1 = xs.length + (0 + 1) - 100 := by omega
      rw [e2]

/-- C8: the connection history is a FIFO ring bounded at 100 entries: after
every tick its length is at most 100, it is always a suffix of the sample
stream (chronological order preserved), and after more than 100 ticks a
query with `limit ≥ 100` returns exactly the 100 most recent samples, the
oldest ones evicted. -/
theorem claim_C8 (entries : List ConnectionSample) :
    (run_history_ticks entries).length ≤ 100
  ∧ run_history_ticks entries = entries.drop (entries.length - 100)
  ∧ (100 < entries.length → ∀ limit : Nat, 100 ≤ limit →
      (run_history_ticks entries).length = 100
      ∧ get_connection_history (run_history_ticks entries) limit
          = entries.drop (entries.length - 100)) := by
  refine ⟨?_, run_history_ticks_eq_drop entries, ?_⟩
  · rw [run_history_ticks_eq_drop, List.length_drop]
    omega
  · intro hN limit hlim
    have hlen : (run_history_ticks entries).length = 100 := by
      rw [run_history_ticks_eq_drop, List.length_drop]
      omega
    refine ⟨hlen, ?_⟩
    have hne : ¬((run_history_ticks entries).isEmpty = true) := by
      intro h
      rw [List.isEmpty_iff] at h
      rw [h] at hlen
      simp at hlen
    rw [get_connection_history, if_neg hne, py_slice_last,
      if_neg (by omega), hlen]
    have h0 : (100 : Nat) - limit = 0 := by omega
    rw [h0, List.drop_zero, run_history_ticks_eq_drop]

/-- A concrete stream of 105 connection samples. -/
def c8_entries : List ConnectionSample :=
  (List.range 105).map (fun (i : Nat) =>
    { timestamp := (i : Rat), connected := true, quality := "good",
      response_time := 50 })

/-- Closed instance of C8: 105 ticks leave exactly the 100 most recent
samples, with the oldest 5 evicted. -/
theorem claim_C8_witness :
    (run_history_ticks c8_entries).length = 100
  ∧ get_connection_history (run_history_ticks c8_entries) 150 =
      c8_entries.drop 5 := by
  have hlen : c8_entries.length = 105 := by
    simp only [c8_entries, List.length_map, List.length_range]
  have h := (claim_C8 c8_entries).2.2 (by rw [hlen]; norm_num) 150 (by norm_num)
  rw [hlen] at h
  norm_num at h
  exact h

/-- C3: on a scan tick whose canonical matched PID changes from `A` to `B`
(both non-null, `A ≠ B`), the found/lost events emitted in that tick start
with exactly `process_lost A` immediately followed by
`process_found B name_B`; and unless the new process vanishes mid-tick
(raising inside `_update_process_status`), these two are the only found/lost
events of the tick and the tracker now tracks `B`. -/
theorem claim_C3 (st : TrackerState) (A B : Nat) (nameB : String)
    (rest : List (Nat × String)) (live : ProcLiveness)
    (hA : st.current_pid = some A) (hAB : A ≠ B) :
    (((scan_tick st ((B, nameB) :: rest) live).snd.filter
        is_found_or_lost).take 2 = [ProcEvent.lost A, ProcEvent.found B nameB])
  ∧ (live ≠ ProcLiveness.vanished →
      ((scan_tick st ((B, nameB) :: rest) live).snd.filter is_found_or_lost
        = [ProcEvent.lost A, ProcEvent.found B nameB])
      ∧ (scan_tick st ((B, nameB) :: rest) live).fst.current_pid = some B) := by
  constructor
  · cases live <;>
      simp [scan_tick, handle_found_processes, update_process_status,
        handle_no_processes, is_found_or_lost, hA, hAB]
  · intro hlive
    cases live with
    | running status =>
      constructor <;>
        simp [scan_tick, handle_found_processes, update_process_status,
          handle_no_processes, is_found_or_lost, hA, hAB]
    | gone =>
      constructor <;>
        simp [scan_tick, handle_found_processes, update_process_status,
          handle_no_processes, is_found_or_lost, hA, hAB]
    | vanished => exact absurd rfl hlive

/-- Closed instance of C3: tracked PID 100, scan finds PID 200. -/
theorem claim_C3_witness :
    ((scan_tick ⟨some 100⟩ [(200, "game.exe")]
        (ProcLiveness.running "running")).snd.filter is_found_or_lost
      = [ProcEvent.lost 100, ProcEvent.found 200 "game.exe"])
  ∧ (scan_tick ⟨some 100⟩ [(200, "game.exe")]
      (ProcLiveness.running "running")).fst.current_pid = some 200 :=
  (claim_C3 ⟨some 100⟩ 100 200 "game.exe" [] (ProcLiveness.running "running")
    rfl (by decide)).2 (by decide)

/-- C6: whenever a tick of `_check_connection` makes the monitor emit a
`connection_lost` event, the reason is `internet_disconnected` exactly when
no basic-connectivity target succeeded, and `game_servers_unreachable`
exactly when basic connectivity still succeeded but no game server was
reachable.  (A disconnected transition happens only when the internet check
failed, so the reason is always `internet_disconnected`; the second
equivalence holds with both sides false.) -/
theorem claim_C6 (st : ConnMonitorState) (now : Rat)
    (internet : InternetResult) (game : GameServersResult) :
    (st.is_connected = true → internet.connected = false →
      lost_reasons (check_connection st now internet game).snd
        = ["internet_disconnected"])
  ∧ (∀ reason : String,
      lost_reasons (check_connection st now internet game).snd = [reason] →
      ((reason = "internet_disconnected" ↔ internet.connected = false)
      ∧ (reason = "game_servers_unreachable" ↔
          (internet.connected = true ∧ game.reachable_servers = [])))) := by
  constructor
  · intro h1 h2
    simp [check_connection, handle_connection_change, lost_reasons, h1, h2]
  · intro reason h
    cases hsc : st.is_connected <;> cases hic : internet.connected <;>
      simp [check_connection, handle_connection_change, lost_reasons, hsc, hic] at h
    subst h
    constructor
    · simp [hic]
    · constructor
      · intro hcontra
        exact absurd hcontra (by decide)
      · rintro ⟨h1, -⟩
        exact absurd h1 (by decide)

/-- Closed instance of C6: a connected monitor whose basic targets all fail
emits `connection_lost` with reason `internet_disconnected`. -/
theorem claim_C6_witness :
    lost_reasons (check_connection ⟨true, 0, []⟩ 1
      ⟨false, [], ["google.com:80", "8.8.8.8:53", "1.1.1.1:53"]⟩
      ⟨[], ["rf4game.com"]⟩).snd = ["internet_disconnected"] :=
  (claim_C6 ⟨true, 0, []⟩ 1
    ⟨false, [], ["google.com:80", "8.8.8.8:53", "1.1.1.1:53"]⟩
    ⟨[], ["rf4game.com"]⟩).1 rfl rfl

/-- The notification loop invokes exactly the subscriber ids, in stored
order, regardless of which callbacks raise. -/
theorem invoked_ids_notify (subs : List Subscriber) :
    invoked_ids (notify_subscribers subs) = subs.map Subscriber.id := by
  induction subs with
  | nil => rfl
  | cons s ss ih =>
    simp [notify_subscribers, invoked_ids] at ih ⊢
    exact ih

/-- A leading history append contributes no invocation. -/
theorem invoked_ids_cons_append (e : BusEvent) (rest : List BusAction) :
    invoked_ids (BusAction.append_history e :: rest) = invoked_ids rest := by
  simp [invoked_ids]

/-- The event appended by `publish` survives the history cap. -/
theorem mem_capped_append (old : List BusEvent) (e : BusEvent) :
    e ∈ (if (old ++ [e]).length > max_history then (old ++ [e]).drop 1
         else old ++ [e]) := by
  split
  · next hgt =>
    have hold : 1 ≤ old.length := by
      simp only [List.length_append, List.length_cons, List.length_nil] at hgt
      by_contra hc
      have : old.length = 0 := by omega
      rw [this] at hgt
      simp [max_history] at hgt
    rw [List.drop_append_of_le_length hold]
    simp
  · simp

/-- C5: for any publish with at least two subscribers, a callback exception
does not prevent any other subscriber from being invoked exactly once; the
published event is appended to the history unconditionally, and the history
append happens before the first subscriber notification in the execution
trace. -/
theorem claim_C5 (st : EventManagerState) (event_name data : String)
    (source : Option String) (now : Rat) (subs : List Subscriber)
    (hsubs : lookup_subscribers st event_name = subs)
    (_hlen : 2 ≤ subs.length)
    (hnodup : (subs.map Subscriber.id).Nodup) :
    invoked_ids (publish st event_name data source now).snd
      = subs.map Subscriber.id
  ∧ (∀ s ∈ subs,
      (invoked_ids (publish st event_name data source now).snd).count s.id = 1)
  ∧ (∃ e : BusEvent, e.name = event_name ∧ e.data = data
      ∧ (publish st event_name data source now).snd
          = BusAction.append_history e :: notify_subscribers subs
      ∧ e ∈ (publish st event_name data source now).fst.event_history) := by
  have htrace : (publish st event_name data source now).snd
      = BusAction.append_history
          ⟨event_name, data, now, source, event_name ++ "_" ++ toString now⟩
        :: notify_subscribers subs := by
    simp [publish, hsubs]
  refine ⟨?_, ?_, ?_⟩
  · rw [htrace, invoked_ids_cons_append, invoked_ids_notify]
  · intro s hs
    rw [htrace, invoked_ids_cons_append, invoked_ids_notify]
    exact List.count_eq_one_of_mem hnodup (List.mem_map_of_mem Subscriber.id hs)
  · refine ⟨⟨event_name, data, now, source, event_name ++ "_" ++ toString now⟩,
      rfl, rfl, htrace, ?_⟩
    simp only [publish]
    exact mem_capped_append st.event_history _

/-- Closed instance of C5: the first of two subscribers raises; both are
still invoked exactly once. -/
theorem claim_C5_witness :
    invoked_ids (publish ⟨[("evt", [⟨1, 0, true⟩, ⟨2, 0, false⟩])], []⟩
      "evt" "payload" none 0).snd = [1, 2] := by
  have h := (claim_C5 ⟨[("evt", [⟨1, 0, true⟩, ⟨2, 0, false⟩])], []⟩
    "evt" "payload" none 0 [⟨1, 0, true⟩, ⟨2, 0, false⟩]
    rfl (by decide) (by decide)).1
  simpa using h

/-- Setting an existing `_singletons` key makes later lookups return the new
value. -/
theorem singleton_get_set (sgl : List (String × Option Nat)) (name : String)
    (v : Option Nat) (h : (singleton_get sgl name).isSome = true) :
    singleton_get (set_singleton sgl name v) name = some v := by
  induction sgl with
  | nil => simp [singleton_get] at h
  | cons p ps ih =>
    by_cases hp : p.fst = name
    · simp [set_singleton, singleton_get, hp]
    · simp only [set_singleton, singleton_get, hp, if_false, if_neg hp] at h ⊢
      exact ih h

/-- C7 fails on the code: registering a factory and fetching the service
twice invokes the factory twice and yields two distinct instances, because
`register_factory` never creates a `_singletons` slot and the factory branch
of `get_service` returns without caching. -/
theorem claim_C7_counterexample :
    (get_service (register_factory ⟨[], [], [], 0, 0, 0⟩ "svc") "svc").fst
      = some 0
  ∧ (get_service (get_service (register_factory ⟨[], [], [], 0, 0, 0⟩ "svc")
      "svc").snd "svc").fst = some 1
  ∧ (get_service (get_service (register_factory ⟨[], [], [], 0, 0, 0⟩ "svc")
      "svc").snd "svc").snd.factory_calls = 2
  ∧ (get_service (register_factory ⟨[], [], [], 0, 0, 0⟩ "svc") "svc").fst
      ≠ (get_service (get_service (register_factory ⟨[], [], [], 0, 0, 0⟩ "svc")
          "svc").snd "svc").fst := by
  refine ⟨rfl, rfl, rfl, by decide⟩

/-- C7 amended: for a name registered only through `register_factory` (no
`_singletons` slot, no `_services` class), every `get_service` call invokes
the factory anew and returns a fresh, uncached instance; the lazy-singleton
caching happens exactly for names holding a pending `_singletons` slot, for
which the factory is invoked once and the instance is served from the cache
afterwards. -/
theorem claim_C7 (st : RegState) (name : String)
    (hs : lookup_singleton st name = none)
    (hsv : name ∉ st.services)
    (hf : name ∈ st.factories) :
    (get_service st name).fst = some st.next_instance
  ∧ (get_service st name).snd.factory_calls = st.factory_calls + 1
  ∧ (get_service st name).snd.singletons = st.singletons
  ∧ (get_service (get_service st name).snd name).fst
      = some (st.next_instance + 1)
  ∧ (get_service (get_service st name).snd name).snd.factory_calls
      = st.factory_calls + 2
  ∧ (get_service st name).fst ≠ (get_service (get_service st name).snd name).fst
  ∧ (∀ st2 : RegState, lookup_singleton st2 name = some none →
      name ∉ st2.services → name ∈ st2.factories →
      (get_service st2 name).fst = some st2.next_instance
      ∧ (get_service st2 name).snd.factory_calls = st2.factory_calls + 1
      ∧ (get_service (get_service st2 name).snd name).fst
          = some st2.next_instance
      ∧ (get_service (get_service st2 name).snd name).snd.factory_calls
          = st2.factory_calls + 1) := by
  have hs0 : singleton_get st.singletons name = none := hs
  have h1 : get_service st name =
      (some st.next_instance,
       { st with
         next_instance := st.next_instance + 1
         factory_calls := st.factory_calls + 1 }) := by
    simp [get_service, lookup_singleton, hs0, hsv, hf]
  have h2 : get_service (get_service st name).snd name =
      (some (st.next_instance + 1),
       { st with
         next_instance := st.next_instance + 1 + 1
         factory_calls := st.factory_calls + 1 + 1 }) := by
    rw [h1]
    simp [get_service, lookup_singleton, hs0, hsv, hf]
  refine ⟨by rw [h1], by rw [h1], by rw [h1],
    by rw [h2], by rw [h2],
    by
      rw [h2, h1]
      intro hcontra
      simp only [Option.some.injEq] at hcontra
      omega, ?_⟩
  intro st2 h2s h2sv h2f
  have h2s0 : singleton_get st2.singletons name = some none := h2s
  have hg1 : get_service st2 name =
      (some st2.next_instance,
       { st2 with
         singletons := set_singleton st2.singletons name (some st2.next_instance)
         next_instance := st2.next_instance + 1
         factory_calls := st2.factory_calls + 1 }) := by
    simp [get_service, lookup_singleton, h2s0, h2sv, h2f]
  have hsome : (singleton_get st2.singletons name).isSome = true := by
    rw [h2s0]
    rfl
  have hl2 : singleton_get
      (set_singleton st2.singletons name (some st2.next_instance)) name
      = some (some st2.next_instance) :=
    singleton_get_set st2.singletons name (some st2.next_instance) hsome
  have hg2 : get_service (get_service st2 name).snd name
      = (some st2.next_instance, (get_service st2 name).snd) := by
    rw [hg1]
    simp [get_service, lookup_singleton, hl2]
  refine ⟨by rw [hg1], by rw [hg1], by rw [hg2], by rw [hg2, hg1]⟩

/-- Closed instance of amended C7: a factory-only registration is invoked on
each of two `get_service` calls, returning distinct instances. -/
theorem claim_C7_witness :
    (get_service ⟨[], ["svc"], [], 0, 0, 0⟩ "svc").fst = some 0
  ∧ (get_service (get_service ⟨[], ["svc"], [], 0, 0, 0⟩ "svc").snd
      "svc").fst = some 1
  ∧ (get_service (get_service ⟨[], ["svc"], [], 0, 0, 0⟩ "svc").snd
      "svc").snd.factory_calls = 2 := by
  have h := claim_C7 ⟨[], ["svc"], [], 0, 0, 0⟩ "svc" rfl (by simp) (by simp)
  exact ⟨h.1, h.2.2.2.1, by rw [h.2.2.2.2.1]⟩

/-- C1 fails on the code: with an existing target file, a failing backup
step (`backup_ok = false`, its Boolean result discarded at line 127 of
configuration_bridge.py) does not stop the write — the file is overwritten,
the cache refreshed, the watcher notified, no backup exists, and the call
reports success. -/
theorem claim_C1_counterexample :
    (write_config ⟨[("cfg", CExt.yaml, [("version", CVal.str "1")])], [], [],
        ["cfg"], []⟩ "cfg" [("version", CVal.str "2")] true false).fst = true
  ∧ (write_config ⟨[("cfg", CExt.yaml, [("version", CVal.str "1")])], [], [],
        ["cfg"], []⟩ "cfg" [("version", CVal.str "2")] true false).snd.files
      = [("cfg", CExt.yaml, [("version", CVal.str "2")])]
  ∧ (write_config ⟨[("cfg", CExt.yaml, [("version", CVal.str "1")])], [], [],
        ["cfg"], []⟩ "cfg" [("version", CVal.str "2")] true false).snd.config_cache
      = [("cfg", [("version", CVal.str "2")])]
  ∧ (write_config ⟨[("cfg", CExt.yaml, [("version", CVal.str "1")])], [], [],
        ["cfg"], []⟩ "cfg" [("version", CVal.str "2")] true false).snd.notifications
      = [("cfg", [("version", CVal.str "2")])]
  ∧ (write_config ⟨[("cfg", CExt.yaml, [("version", CVal.str "1")])], [], [],
        ["cfg"], []⟩ "cfg" [("version", CVal.str "2")] true false).snd.backups
      = [] :=
  ⟨rfl, rfl, rfl, rfl, rfl⟩

/-- C1 amended: the backup step is best-effort.  When the target file
exists, a failing backup changes nothing about the write: the result flag,
the on-disk files, the cache and the watcher notifications are identical to
a run whose backup succeeds; only the backup directory differs (no backup
file versus one verbatim copy of the pre-write content). -/
theorem claim_C1 (st : BridgeState) (name : String) (data : CDict)
    (ext : CExt) (h : find_config_file st.files name = some ext) :
    (write_config st name data true false).fst
      = (write_config st name data true true).fst
  ∧ (write_config st name data true false).snd.files
      = (write_config st name data true true).snd.files
  ∧ (write_config st name data true false).snd.config_cache
      = (write_config st name data true true).snd.config_cache
  ∧ (write_config st name data true false).snd.notifications
      = (write_config st name data true true).snd.notifications
  ∧ (write_config st name data true false).snd.backups = st.backups
  ∧ (write_config st name data true true).snd.backups
      = st.backups ++ [(name, ext, (lookup_file st.files name ext).getD [])] := by
  by_cases hwr : (write_config_file ext data).fst = true <;>
    simp [write_config, h, hwr]

/-- Closed instance of amended C1: backup failure produces no backup entry
while a successful backup stores the pre-write content. -/
theorem claim_C1_witness :
    (write_config ⟨[("cfg", CExt.yaml, [("a", CVal.int 1)])], [], [], [], []⟩
      "cfg" [("b", CVal.int 2)] true false).snd.backups = []
  ∧ (write_config ⟨[("cfg", CExt.yaml, [("a", CVal.int 1)])], [], [], [], []⟩
      "cfg" [("b", CVal.int 2)] true true).snd.backups
      = [("cfg", CExt.yaml, [("a", CVal.int 1)])] := by
  have h := claim_C1 ⟨[("cfg", CExt.yaml, [("a", CVal.int 1)])], [], [], [], []⟩
    "cfg" [("b", CVal.int 2)] CExt.yaml rfl
  refine ⟨h.2.2.2.2.1, ?_⟩
  rw [h.2.2.2.2.2]
  rfl

end RF4S
